import Mathlib

/-!
Verification development for the assistant-transport backend
(`src/agent/main.py`): a conversational-agent server built from a two-node
LangGraph execution graph (`agent` ↔ `tools`), a set of tool
implementations (`get_weather`, `search_products`, `display_graph`,
`task_tool`), a one-node subagent graph for delegated tasks, and a
run callback that converts inbound transport commands into input messages
and streams namespaced graph events into the run controller state.

The Python source is shallowly embedded below.  Machine-level details that
the source leaves to the ambient environment are made explicit:

* the global `random` module state is threaded as an explicit stream
  `Rng := Nat → Nat` of draws;
* the language-model calls (`ChatOpenAI`) are opaque and appear as
  parameters of an `LLMEnv` record, together with the
  `OPENAI_API_KEY`-presence flag the source branches on;
* Python exceptions are `Except String` values (`str(e)` is the payload);
* JSON values are the inductive `Val`, and `json.dumps(..., ensure_ascii=False)`
  is the serializer `dumpVal` (default separators `", "` / `": "`).
-/

set_option linter.unusedVariables false

namespace AssistantDemo

/-- A JSON-like Python value (the payloads the server builds and serializes). -/
inductive Val where
  | vnull : Val
  | vbool : Bool → Val
  | vstr : String → Val
  | vnat : Nat → Val
  | varr : List Val → Val
  | vobj : List (String × Val) → Val

mutual
/-- `json.dumps(v, ensure_ascii=False)` with the default separators. -/
def dumpVal : Val → String
  | .vnull => "null"
  | .vbool true => "true"
  | .vbool false => "false"
  | .vstr s => "\"" ++ s ++ "\""
  | .vnat n => toString n
  | .varr xs => "[" ++ dumpArr xs ++ "]"
  | .vobj fs => "\x7b" ++ dumpObj fs ++ "\x7d"

/-- Serialize the elements of a JSON array, `", "`-separated. -/
def dumpArr : List Val → String
  | [] => ""
  | [x] => dumpVal x
  | x :: y :: rest => dumpVal x ++ ", " ++ dumpArr (y :: rest)

/-- Serialize the fields of a JSON object, `", "`-separated. -/
def dumpObj : List (String × Val) → String
  | [] => ""
  | [(k, v)] => "\"" ++ k ++ "\": " ++ dumpVal v
  | (k, v) :: f :: rest => "\"" ++ k ++ "\": " ++ dumpVal v ++ ", " ++ dumpObj (f :: rest)
end

/-- The ambient state of Python's global `random` module, as the stream of
draws the module will answer with. -/
def Rng : Type := Nat → Nat

/-- `random.randint(a, b)` answered with draw number `i` of the stream
(both endpoints inclusive). -/
def pyRandint (r : Rng) (i a b : Nat) : Nat := a + r i % (b - a + 1)

/-- `random.choice(xs)` answered with draw number `i` of the stream. -/
def pyChoice (r : Rng) (i : Nat) (xs : List String) : String :=
  xs.getD (r i % xs.length) ""

/-- The condition list of `get_weather`. -/
def weatherConditions : List String :=
  ["sunny", "cloudy", "rainy", "partly cloudy", "overcast"]

/-- The `weather_data` dict built by `get_weather` (source lines 143–151),
given the four random draws.  `unitInitial` is `unit[0].upper()`. -/
def weatherData (location unit : String) (temp : Nat) (condition : String)
    (humidity windSpeed : Nat) (unitInitial : Char) : List (String × Val) :=
  [("location", .vstr location),
   ("temperature", .vnat temp),
   ("unit", .vstr unit),
   ("condition", .vstr condition),
   ("humidity", .vnat humidity),
   ("windSpeed", .vnat windSpeed),
   ("description", .vstr ("The weather in " ++ location ++ " is " ++ condition ++
      " with a temperature of " ++ toString temp ++ "¬∞" ++
      String.mk [unitInitial.toUpper] ++ "."))]

/-- `get_weather(location, unit="celsius")` (source lines 113–153).  Draws
`temp`, `condition`, `humidity`, `windSpeed` from the random stream and
returns the dumped `weather_data` JSON.  `unit[0]` raises `IndexError`
("string index out of range") when `unit` is the empty string, so the
result is an `Except`. -/
def get_weather (r : Rng) (location : String) (unit : String) : Except String String :=
  let temp := pyRandint r 0 10 30
  let condition := pyChoice r 1 weatherConditions
  let humidity := pyRandint r 2 40 80
  let windSpeed := pyRandint r 3 5 25
  match unit.data with
  | [] => .error "string index out of range"
  | c :: _ =>
    .ok (dumpVal (.vobj (weatherData location unit temp condition humidity windSpeed c)))

/-- The mock product list of `search_products` (source lines 173–189). -/
def productRows : List Val :=
  [.vobj [("id", .vnat 1), ("name", .vstr "Product 1"), ("price", .vnat 100)],
   .vobj [("id", .vnat 2), ("name", .vstr "Product 2"), ("price", .vnat 200)],
   .vobj [("id", .vnat 3), ("name", .vstr "Product 3"), ("price", .vnat 300)]]

/-- `search_products(query)` (source lines 156–197): ignores the query and
returns the dumped mock data table. -/
def search_products (query : String) : String :=
  dumpVal (.vobj
    [("data", .varr productRows),
     ("columns", .varr [.vstr "id", .vstr "name", .vstr "price"]),
     ("row_id_key", .vstr "id"),
     ("description", .vstr "Products data table")])

/-- `display_graph(plot_type)` (source lines 200–250): dummy chart data per
plot type, or an error object for unsupported types. -/
def display_graph (plot_type : String) : String :=
  if plot_type = "bar" then
    dumpVal (.vobj
      [("labels", .varr [.vstr "Q1", .vstr "Q2", .vstr "Q3", .vstr "Q4"]),
       ("values", .varr [.vnat 120, .vnat 150, .vnat 180, .vnat 200]),
       ("title", .vstr "Quarterly Sales"),
       ("xlabel", .vstr "Quarter"),
       ("ylabel", .vstr "Sales (thousands)")])
  else if plot_type = "line" then
    dumpVal (.vobj
      [("labels", .varr [.vstr "Jan", .vstr "Feb", .vstr "Mar", .vstr "Apr",
         .vstr "May", .vstr "Jun"]),
       ("values", .varr [.vnat 45, .vnat 52, .vnat 48, .vnat 61, .vnat 55, .vnat 67]),
       ("title", .vstr "Monthly Revenue Trend"),
       ("xlabel", .vstr "Month"),
       ("ylabel", .vstr "Revenue (thousands)")])
  else if plot_type = "pie" then
    dumpVal (.vobj
      [("labels", .varr [.vstr "Product A", .vstr "Product B", .vstr "Product C",
         .vstr "Product D"]),
       ("values", .varr [.vnat 30, .vnat 25, .vnat 20, .vnat 25]),
       ("title", .vstr "Product Sales Distribution")])
  else
    dumpVal (.vobj [("error", .vstr ("Unsupported plot type: " ++ plot_type))])

/-! ## Messages and tool calls -/

/-- One tool invocation requested by the model: langchain's tool-call dict
`{"id": ..., "name": ..., "args": {...}}`.  The argument values the server
reads (`location`, `unit`, `query`, `plot_type`, `task_description`) are
strings, so `args` is a string-valued association list. -/
structure ToolCall where
  id : String
  name : String
  args : List (String × String)
deriving DecidableEq, Repr

/-- Python's `args.get(key, default)`. -/
def argGet (args : List (String × String)) (key default : String) : String :=
  (args.lookup key).getD default

/-- A langchain `BaseMessage`: `SystemMessage`, `HumanMessage`, `AIMessage`
(with its `tool_calls` list), or `ToolMessage` (with `tool_call_id`,
optional `name`).  `ToolMessage.artifact` is kept in the separate
`ToolMessage` record below, which is what `tool_executor_node` produces. -/
inductive BaseMessage where
  | system : String → BaseMessage
  | human : String → BaseMessage
  | ai : String → List ToolCall → BaseMessage
  | tool : String → String → Option String → BaseMessage
deriving DecidableEq, Repr

/-- A `ToolMessage(content, tool_call_id, name, artifact)` as constructed by
`tool_executor_node`.  `artifact` is the Python object stored in the
message, encoded as a JSON-like `Val`. -/
structure ToolMessage where
  content : String
  tool_call_id : String
  name : Option String
  artifact : Option Val

/-- The subagent's `SubagentState` TypedDict. -/
structure SubagentState where
  messages : List BaseMessage
  task : String
  result : String

/-- The opaque external environment: whether `OPENAI_API_KEY` is set, and
the `ChatOpenAI` model used by the subagent as an opaque function from the
task description to the response content. -/
structure LLMEnv where
  hasApiKey : Bool
  subagentLLM : String → String

/-- `subagent_node` (source lines 254–285): the single node of the subagent
graph.  Returns the state update `{"messages": [AIMessage(result)],
"result": result}`. -/
def subagent_node (env : LLMEnv) (st : SubagentState) : List BaseMessage × String :=
  let result :=
    if env.hasApiKey then env.subagentLLM st.task
    else "Mock subagent result for task: " ++ st.task
  ([.ai result []], result)

/-- `subagent_graph.ainvoke(init)`: the subagent graph (source lines
288–299) runs `execute_task` once and terminates; the `add_messages`
reducer appends the returned messages (none carry ids, so no dedup occurs),
`result` is overwritten, `task` is untouched. -/
def subagent_invoke (env : LLMEnv) (init : SubagentState) : SubagentState :=
  let u := subagent_node env init
  { messages := init.messages ++ u.1, task := init.task, result := u.2 }

/-- `model_dump` of a message, as the JSON-like object stored inside the
`subgraph_state` artifact. -/
def encodeMessage : BaseMessage → Val
  | .system c => .vobj [("type", .vstr "system"), ("content", .vstr c)]
  | .human c => .vobj [("type", .vstr "human"), ("content", .vstr c)]
  | .ai c calls => .vobj [("type", .vstr "ai"), ("content", .vstr c),
      ("tool_calls", .varr (calls.map (fun tc => .vobj
        [("id", .vstr tc.id), ("name", .vstr tc.name),
         ("args", .vobj (tc.args.map (fun kv => (kv.1, .vstr kv.2))))])))]
  | .tool c tcid n => .vobj [("type", .vstr "tool"), ("content", .vstr c),
      ("tool_call_id", .vstr tcid),
      ("name", n.elim .vnull .vstr)]

/-- The subagent's final state as the Python object stored in the artifact. -/
def encodeSubagentState (st : SubagentState) : Val :=
  .vobj [("messages", .varr (st.messages.map encodeMessage)),
         ("task", .vstr st.task),
         ("result", .vstr st.result)]

/-! ## Tool dispatch (`tool_executor_node`) -/

/-- The `try: ... except Exception as e: ...` pattern shared by the three
backend-tool branches of `tool_executor_node`: an `.ok` invocation result
becomes the tool message content, a raised exception `e` is caught and
becomes `errFmt (str e)`.  Either way the message carries the request's
`tool_call_id` and `name`, and no exception leaves the executor. -/
def runBackendTool (tc : ToolCall) (invokeResult : Except String String)
    (errFmt : String → String) : ToolMessage :=
  match invokeResult with
  | .ok s => { content := s, tool_call_id := tc.id, name := some tc.name, artifact := none }
  | .error e =>
      { content := errFmt e, tool_call_id := tc.id, name := some tc.name, artifact := none }

/-- One iteration of the dispatch loop of `tool_executor_node` (source
lines 386–498).  Returns the produced `ToolMessage`, the list of subagent
runs spawned by this call (their full final states, one entry per
`subagent_graph.ainvoke`), and the number of random draws the call
consumed (only `get_weather` reads the random module: 4 draws). -/
def execToolCallT (env : LLMEnv) (r : Rng) (tc : ToolCall) :
    ToolMessage × List SubagentState × Nat :=
  if tc.name = "task_tool" then
    let task_description := argGet tc.args "task_description" ""
    let subagent_state : SubagentState := ⟨[], task_description, ""⟩
    let final_state := subagent_invoke env subagent_state
    ({ content := final_state.result, tool_call_id := tc.id, name := some tc.name,
       artifact := some (.vobj [("subgraph_state", encodeSubagentState final_state)]) },
     [final_state], 0)
  else if tc.name = "get_weather" then
    let location := argGet tc.args "location" "unknown"
    let unit := argGet tc.args "unit" "celsius"
    (runBackendTool tc (get_weather r location unit)
      (fun e => "Error fetching weather for " ++ location ++ ": " ++ e), [], 4)
  else if tc.name = "search_products" then
    let query := argGet tc.args "query" ""
    (runBackendTool tc (.ok (search_products query))
      (fun e => "Error searching products for " ++ query ++ ": " ++ e), [], 0)
  else if tc.name = "display_graph" then
    let plot_type := argGet tc.args "plot_type" "bar"
    (runBackendTool tc (.ok (display_graph plot_type))
      (fun e => "Error displaying graph with plot_type " ++ plot_type ++ ": " ++ e), [], 0)
  else
    ({ content := "Executed tool " ++ tc.name, tool_call_id := tc.id, name := some tc.name,
       artifact := none }, [], 0)

/-- The backend invocation performed inside the `try` of the corresponding
branch of `tool_executor_node`, for the three backend tools (`none` for
tool names with no backend invocation).  Threads the same ambient random
stream and argument extraction as `execToolCallT`. -/
def backendInvoke (r : Rng) (tc : ToolCall) : Option (Except String String) :=
  if tc.name = "get_weather" then
    some (get_weather r (argGet tc.args "location" "unknown") (argGet tc.args "unit" "celsius"))
  else if tc.name = "search_products" then
    some (.ok (search_products (argGet tc.args "query" "")))
  else if tc.name = "display_graph" then
    some (.ok (display_graph (argGet tc.args "plot_type" "bar")))
  else none

/-- The dispatch loop over the `tool_calls` of the last message, threading
the ambient random stream: the call at the head sees the stream from
offset `k`, and the remaining calls see it advanced by the number of draws
the head consumed. -/
def execToolCalls (env : LLMEnv) (s : Rng) (k : Nat) :
    List ToolCall → List ToolMessage × List SubagentState
  | [] => ([], [])
  | tc :: rest =>
    let res := execToolCallT env (fun i => s (i + k)) tc
    let next := execToolCalls env s (k + res.2.2) rest
    (res.1 :: next.1, res.2.1 ++ next.2)

/-- The `tool_calls` of the last message of the state: `[]` when the
message list is empty or the last message is not an assistant message
(`hasattr(last_message, 'tool_calls')` fails) or its `tool_calls` is
empty. -/
def lastToolCalls (messages : List BaseMessage) : List ToolCall :=
  match messages.getLast? with
  | some (.ai _ calls) => calls
  | _ => []

/-- `tool_executor_node` (source lines 369–501): produces one tool message
per tool call of the last message, in request order; returns `[]` when
there are no messages or no tool calls. -/
def tool_executor_node (env : LLMEnv) (s : Rng) (messages : List BaseMessage) :
    List ToolMessage :=
  (execToolCalls env s 0 (lastToolCalls messages)).1

/-- The subagent runs spawned during one `tool_executor_node` invocation
(one entry per `subagent_graph.ainvoke` call, holding its full final
state). -/
def tool_executor_spawned (env : LLMEnv) (s : Rng) (messages : List BaseMessage) :
    List SubagentState :=
  (execToolCalls env s 0 (lastToolCalls messages)).2

/-! ## Graph routing (`should_call_tools`, `create_graph`) -/

/-- `should_call_tools` (source lines 353–366): `"end"` on an empty message
list; `"tools"` when the last message has a (nonempty) `tool_calls`
attribute; `"end"` otherwise.  Only assistant messages have the
`tool_calls` attribute. -/
def should_call_tools (messages : List BaseMessage) : String :=
  match messages.getLast? with
  | none => "end"
  | some (.ai _ calls) => if calls.isEmpty then "end" else "tools"
  | some _ => "end"

/-- The two graph nodes of `create_graph`. -/
inductive GNode where
  | agent : GNode
  | tools : GNode
deriving DecidableEq, Repr

/-- The entry point set by `workflow.set_entry_point("agent")`. -/
def entryPoint : GNode := .agent

/-- The edges compiled by `create_graph` (source lines 506–532): after
`agent`, the conditional edge maps `should_call_tools`'s result through
`{"tools": "tools", "end": END}` (`none` = END); after `tools`, the
unconditional edge returns to `agent`. -/
def routeAfter : GNode → List BaseMessage → Option GNode
  | .agent, messages =>
    match should_call_tools messages with
    | "tools" => some .tools
    | _ => none
  | .tools, _ => some .agent

/-! ## Inbound commands and run seeding (`run_callback`, `chat_endpoint`) -/

/-- A `MessagePart` of a user message (pydantic model, source lines 45–49). -/
structure MessagePart where
  type : String
  text : Option String
  image : Option String
deriving DecidableEq, Repr

/-- An inbound command: `AddMessageCommand` (a user message as a list of
parts) or `AddToolResultCommand` (a client-supplied tool-call id and a
result dict). -/
inductive Command where
  | addMessage : List MessagePart → Command
  | addToolResult : String → List (String × Val) → Command

/-- The single-quote character (used by Python's `str()` on strings). -/
def squote : String := String.mk [Char.ofNat 39]

mutual
/-- Python's `str(...)` on the JSON-like values a tool result can hold
(`repr`-style: `None`/`True`/`False`, single-quoted strings). -/
def pyStr : Val → String
  | .vnull => "None"
  | .vbool true => "True"
  | .vbool false => "False"
  | .vstr s => squote ++ s ++ squote
  | .vnat n => toString n
  | .varr xs => "[" ++ pyStrArr xs ++ "]"
  | .vobj fs => "\x7b" ++ pyStrObj fs ++ "\x7d"

/-- `str()` of a Python list's elements, `", "`-separated. -/
def pyStrArr : List Val → String
  | [] => ""
  | [x] => pyStr x
  | x :: y :: rest => pyStr x ++ ", " ++ pyStrArr (y :: rest)

/-- `str()` of a Python dict's items, `", "`-separated. -/
def pyStrObj : List (String × Val) → String
  | [] => ""
  | [(k, v)] => squote ++ k ++ squote ++ ": " ++ pyStr v
  | (k, v) :: f :: rest =>
      squote ++ k ++ squote ++ ": " ++ pyStr v ++ ", " ++ pyStrObj (f :: rest)
end

/-- The list comprehension of the `add-message` branch (source lines
581–584): the `text` of the parts whose `type` is `"text"` and whose
`text` is truthy (not `None`, not empty). -/
def textPartsOf (parts : List MessagePart) : List String :=
  parts.filterMap (fun p =>
    match p.text with
    | some t => if p.type = "text" ∧ t ≠ "" then some t else none
    | none => none)

/-- The messages contributed by one command (the body of the command loop,
source lines 578–594): an `add-message` command contributes
`HumanMessage(" ".join(text_parts))` when `text_parts` is nonempty and
nothing otherwise; an `add-tool-result` command contributes
`ToolMessage(content=str(result), tool_call_id=toolCallId)`. -/
def commandContribution : Command → List BaseMessage
  | .addMessage parts =>
    let text_parts := textPartsOf parts
    if text_parts = [] then []
    else [.human (String.intercalate " " text_parts)]
  | .addToolResult toolCallId result =>
    [.tool (pyStr (.vobj result)) toolCallId none]

/-- The `input_messages` accumulation loop of `run_callback`
(source lines 575–594). -/
def inputMessagesLoop (acc : List BaseMessage) : List Command → List BaseMessage
  | [] => acc
  | c :: rest => inputMessagesLoop (acc ++ commandContribution c) rest

/-- The `input_messages` list built by `run_callback` from the request's
commands. -/
def input_messages (commands : List Command) : List BaseMessage :=
  inputMessagesLoop [] commands

/-- The LangGraph input state `{"messages": input_messages}` handed to
`graph.astream` (source line 601): the conversion of all commands happens
before the execution graph starts. -/
def graph_initial_state (commands : List Command) : List BaseMessage :=
  input_messages commands

/-- Modelled from the spec: `create_run(run_callback, state=request.state)`
is library code (`assistant_stream.create_run`, not in the repository);
per the spec's `createRun(initialState)` contract it hands the inbound
state object (or `None`) to the callback as `controller.state`. -/
def create_run_state (requestState : Option (List (String × Val))) :
    Option (List (String × Val)) :=
  requestState

/-- The state-initialization prologue of `run_callback` (source lines
569–573): replace a `None` state with `{}`, then add `"messages": []` if
the key is absent (Python dicts append new keys at the end). -/
def run_callback_seed (requestState : Option (List (String × Val))) :
    List (String × Val) :=
  let st := (create_run_state requestState).getD []
  if (st.lookup "messages").isNone then st ++ [("messages", .varr [])] else st

/-! ## The event adapter (spec-modelled)

The event loop of `run_callback` (source lines 606–624) feeds every
`(namespace, event_type, chunk)` triple of `graph.astream(...,
subgraphs=True)` through `get_tool_call_subgraph_state` and
`append_langgraph_event`.  Both functions are imported from the
`assistant_stream` library and are not part of this repository's sources,
so they are modelled here from the spec (§4.3–§4.4): an event with an
empty namespace is applied to the top-level `messages` list; an event with
a nonempty namespace is applied to the nested state container of the tool
call whose delegated sub-computation produced it, resolved by mapping the
namespace's first segment's invocation id through the dispatch-time
`invocation-id → tool-call-id` registry (a pending placeholder container
is used while no mapping exists).  The containers record the events
applied to them. -/

/-- One `(step-name, invocation-id)` segment of an event namespace. -/
structure NsSegment where
  node : String
  invId : String
deriving DecidableEq, Repr

/-- A raw execution event `(namespace, event_type, chunk)`. -/
structure RawEvent where
  ns : List NsSegment
  eventType : String
  chunk : Val

/-- The container an event is routed to: the artifact of the tool message
answering a specific tool call, or a pending placeholder for a namespace
whose mapping is not yet registered. -/
inductive SubKey where
  | toolCall : String → SubKey
  | pending : String → SubKey
deriving DecidableEq, Repr

/-- A nested state container and the events applied to it. -/
structure SubContainer where
  key : SubKey
  events : List RawEvent

/-- The adapter's run state: the events applied to the top-level `messages`
list, and the nested containers. -/
structure AdapterState where
  topEvents : List RawEvent
  subs : List SubContainer

/-- Modelled from the spec: the container key
`get_tool_call_subgraph_state` resolves a namespace's first segment to,
through the dispatch-time invocation-id → tool-call-id mapping. -/
def resolveKey (mapping : String → Option String) (seg : NsSegment) : SubKey :=
  match mapping seg.invId with
  | some tcid => .toolCall tcid
  | none => .pending seg.invId

/-- Append an event to the container with the given key, creating the
container (at the end) if absent. -/
def addToSub : List SubContainer → SubKey → RawEvent → List SubContainer
  | [], k, e => [⟨k, [e]⟩]
  | c :: cs, k, e =>
    if c.key = k then ⟨c.key, c.events ++ [e]⟩ :: cs else c :: addToSub cs k e

/-- Modelled from the spec: one iteration of the event loop of
`run_callback` — `append_langgraph_event` applied to the container
`get_tool_call_subgraph_state` resolved for the event's namespace. -/
def routeEvent (mapping : String → Option String) (st : AdapterState) (e : RawEvent) :
    AdapterState :=
  match e.ns with
  | [] => ⟨st.topEvents ++ [e], st.subs⟩
  | seg :: _ => ⟨st.topEvents, addToSub st.subs (resolveKey mapping seg) e⟩

/-- The whole event loop: fold the raw event stream, in arrival order, over
an initially empty adapter state. -/
def runAdapter (mapping : String → Option String) (events : List RawEvent) :
    AdapterState :=
  events.foldl (routeEvent mapping) ⟨[], []⟩

/-! ## Spec-side predicates and statement helpers -/

/-- Spec wording: a message "carries at least one ToolCallRequest" (per the
data model, `toolCalls` exists only on assistant messages). -/
def carriesToolCallRequest : BaseMessage → Bool
  | .ai _ calls => !calls.isEmpty
  | _ => false

/-- Spec wording: "the latest message carries at least one
ToolCallRequest" (false on an empty message list). -/
def latestCarriesToolCall (messages : List BaseMessage) : Bool :=
  (messages.getLast?).elim false carriesToolCallRequest

/-- Claim C8's property of a tool-message content: it is the JSON dump of
an object whose `"location"` field is `L` and whose `"unit"` field is the
requested unit `u`. -/
def weatherJsonClaim (L u content : String) : Prop :=
  ∃ fs : List (String × Val), content = dumpVal (.vobj fs) ∧
    fs.lookup "location" = some (.vstr L) ∧ fs.lookup "unit" = some (.vstr u)

/-- The amended inbound-command interpretation, written from the corrected
spec wording: an `add-message` command with at least one nonempty text
part contributes exactly one user message whose content is the text parts
joined by single spaces, and one with none contributes nothing; an
`add-tool-result` command contributes exactly one tool message carrying
the client-supplied tool-call id. -/
def commandMessagesSpec : List Command → List BaseMessage
  | [] => []
  | .addMessage parts :: rest =>
    (if textPartsOf parts = [] then []
     else [BaseMessage.human (String.intercalate " " (textPartsOf parts))]) ++
      commandMessagesSpec rest
  | .addToolResult toolCallId result :: rest =>
    BaseMessage.tool (pyStr (.vobj result)) toolCallId none :: commandMessagesSpec rest

/-- `search_products` as invoked in the ambient random-module state: the
source function never reads the `random` module, so the invocation ignores
the stream. -/
def search_products_at (r : Rng) (query : String) : String :=
  search_products query

/-- `display_graph` as invoked in the ambient random-module state: the
source function never reads the `random` module, so the invocation ignores
the stream. -/
def display_graph_at (r : Rng) (plot_type : String) : String :=
  display_graph plot_type

/-- The number of fields of a JSON object (used to separate a one-field
wrapper object from the three-field subagent state it wraps). -/
def vobjLen : Val → Nat
  | .vobj fs => fs.length
  | _ => 0

/-- The adapter invariant behind claim C1: every event applied to the
top-level `messages` list has the empty namespace, and every event inside
a nested container was routed there by resolving its namespace's first
segment to exactly that container's key. -/
def AdapterInv (mapping : String → Option String) (st : AdapterState) : Prop :=
  (∀ e ∈ st.topEvents, e.ns = []) ∧
  (∀ c ∈ st.subs, ∀ x ∈ c.events,
    ∃ seg rest, x.ns = seg :: rest ∧ resolveKey mapping seg = c.key)

/-! ## Concrete fixtures for witnesses and counterexamples -/

/-- A concrete environment: no `OPENAI_API_KEY`, trivial subagent model. -/
def env0 : LLMEnv := ⟨false, fun _ => ""⟩

/-- The all-zero random stream. -/
def r0 : Rng := fun _ => 0

/-- The all-seven random stream. -/
def r7 : Rng := fun _ => 7

/-- A weather request whose `unit` argument is the empty string. -/
def wErrTc : ToolCall := ⟨"w1", "get_weather", [("location", "Tokyo"), ("unit", "")]⟩

/-- A weather request with no `unit` argument (defaults to celsius). -/
def wokTc : ToolCall := ⟨"w2", "get_weather", [("location", "Tokyo")]⟩

/-- A product-search request. -/
def spTc : ToolCall := ⟨"s1", "search_products", [("query", "shoes")]⟩

/-- A delegation request. -/
def taskTc : ToolCall := ⟨"t1", "task_tool", [("task_description", "demo")]⟩

/-- A tool-call batch with an unrecognized tool name in front. -/
def calls0 : List ToolCall := [⟨"u1", "frobnicate", []⟩, wErrTc]

/-- A concrete dispatch-time registry: sub-computation `inv1` was spawned
by tool call `A`, sub-computation `inv2` by its sibling `B`. -/
def mapping0 : String → Option String :=
  fun s => if s = "inv1" then some "A" else if s = "inv2" then some "B" else none

/-- A concrete interleaved event stream: one top-level event and one event
from each of the two sibling sub-computations. -/
def events0 : List RawEvent :=
  [⟨[], "updates", .vnull⟩,
   ⟨[⟨"tools", "inv1"⟩], "messages", .vnull⟩,
   ⟨[⟨"tools", "inv2"⟩], "messages", .vnull⟩]

/-- An `add-message` command with two text parts. -/
def abCmd : Command := .addMessage [⟨"text", some "a", none⟩, ⟨"text", some "b", none⟩]

/-- An `add-message` command with no text parts (a single image part). -/
def imgCmd : Command := .addMessage [⟨"image", none, some "img"⟩]

/-- A concrete inbound state object carrying a messages list. -/
def seedSt : List (String × Val) := [("messages", Val.varr [Val.vstr "m"])]

/-! ## Helper lemmas -/

/-- A string starting with the error marker is nonempty. -/
theorem error_append_ne_empty (s : String) : "Error " ++ s ≠ "" := by
  intro h
  have h2 := congrArg String.length h
  rw [String.length_append] at h2
  have h6 : ("Error " : String).length = 6 := rfl
  have h0 : ("" : String).length = 0 := rfl
  rw [h6, h0] at h2
  omega

/-- The serialized form of a JSON object starts with an opening brace. -/
theorem dumpVal_vobj_head (fs : List (String × Val)) :
    (dumpVal (.vobj fs)).data.head? = some (Char.ofNat 123) := by
  show (("\x7b" ++ dumpObj fs) ++ "\x7d").data.head? = some (Char.ofNat 123)
  rw [String.data_append, String.data_append]
  have h : ("\x7b" : String).data = [Char.ofNat 123] := rfl
  rw [h]
  rfl

/-- Every branch of the dispatch loop answers with the request's id. -/
theorem execToolCallT_id (env : LLMEnv) (r : Rng) (tc : ToolCall) :
    (execToolCallT env r tc).1.tool_call_id = tc.id := by
  simp only [execToolCallT, runBackendTool]
  repeat' split
  all_goals rfl

/-- Every branch of the dispatch loop answers with the request's name. -/
theorem execToolCallT_name (env : LLMEnv) (r : Rng) (tc : ToolCall) :
    (execToolCallT env r tc).1.name = some tc.name := by
  simp only [execToolCallT, runBackendTool]
  repeat' split
  all_goals rfl

/-- The dispatch loop produces one message per request. -/
theorem execToolCalls_length (env : LLMEnv) (s : Rng) :
    ∀ (calls : List ToolCall) (k : Nat),
      ((execToolCalls env s k calls).1).length = calls.length
  | [], _ => rfl
  | tc :: rest, k => by
    simp [execToolCalls, execToolCalls_length env s rest]

/-- The dispatch loop answers request `i` with a message carrying request
`i`'s id and name, for every offset of the ambient random stream. -/
theorem execToolCalls_getElem (env : LLMEnv) (s : Rng) :
    ∀ (calls : List ToolCall) (k i : Nat),
      (((execToolCalls env s k calls).1)[i]?).map ToolMessage.tool_call_id =
        (calls[i]?).map ToolCall.id ∧
      (((execToolCalls env s k calls).1)[i]?).map ToolMessage.name =
        (calls[i]?).map (fun tc => some tc.name)
  | [], k, i => by simp [execToolCalls]
  | tc :: rest, k, 0 => by
    simp [execToolCalls, execToolCallT_id, execToolCallT_name]
  | tc :: rest, k, i + 1 => by
    simpa [execToolCalls] using
      execToolCalls_getElem env s rest
        (k + (execToolCallT env (fun j => s (j + k)) tc).2.2) i

/-- Appending an assistant message makes its calls the dispatched batch. -/
theorem lastToolCalls_concat (pre : List BaseMessage) (c : String)
    (calls : List ToolCall) :
    lastToolCalls (pre ++ [.ai c calls]) = calls := by
  simp [lastToolCalls, List.getLast?_concat]

/-- `should_call_tools` is the guard predicate "the latest message carries
at least one ToolCallRequest". -/
theorem should_call_tools_spec (messages : List BaseMessage) :
    should_call_tools messages =
      if latestCarriesToolCall messages then "tools" else "end" := by
  cases h : messages.getLast? with
  | none => simp [should_call_tools, latestCarriesToolCall, h]
  | some m =>
    cases m with
    | ai cnt calls =>
      cases calls <;>
        simp [should_call_tools, latestCarriesToolCall, carriesToolCallRequest, h]
    | system cnt =>
      simp [should_call_tools, latestCarriesToolCall, carriesToolCallRequest, h]
    | human cnt =>
      simp [should_call_tools, latestCarriesToolCall, carriesToolCallRequest, h]
    | tool cnt tcid n =>
      simp [should_call_tools, latestCarriesToolCall, carriesToolCallRequest, h]

/-- Appending an event to a keyed container preserves the per-container
routing soundness, provided the event resolves to the key it is filed
under. -/
theorem addToSub_sound (mapping : String → Option String) (k : SubKey) (e : RawEvent)
    (he : ∃ seg rest, e.ns = seg :: rest ∧ resolveKey mapping seg = k) :
    ∀ cs : List SubContainer,
      (∀ c ∈ cs, ∀ x ∈ c.events,
        ∃ seg rest, x.ns = seg :: rest ∧ resolveKey mapping seg = c.key) →
      ∀ c ∈ addToSub cs k e, ∀ x ∈ c.events,
        ∃ seg rest, x.ns = seg :: rest ∧ resolveKey mapping seg = c.key
  | [], _ => by
    intro c hc x hx
    simp [addToSub] at hc
    subst hc
    simp at hx
    subst hx
    exact he
  | c0 :: cs, hcs => by
    intro c hc x hx
    simp only [addToSub] at hc
    by_cases hk : c0.key = k
    · rw [if_pos hk] at hc
      rcases List.mem_cons.mp hc with hceq | hmem
      · subst hceq
        simp only at hx
        rcases List.mem_append.mp hx with hold | hnew
        · exact hcs c0 (List.mem_cons_self c0 cs) x hold
        · simp at hnew
          subst hnew
          rcases he with ⟨seg, rest, h1, h2⟩
          exact ⟨seg, rest, h1, by rw [h2, hk]⟩
      · exact hcs c (List.mem_cons_of_mem c0 hmem) x hx
    · rw [if_neg hk] at hc
      rcases List.mem_cons.mp hc with hceq | hmem
      · subst hceq
        exact hcs c (List.mem_cons_self c cs) x hx
      · exact addToSub_sound mapping k e he cs
          (fun c2 hc2 => hcs c2 (List.mem_cons_of_mem c0 hc2)) c hmem x hx

/-- One event-loop iteration preserves the adapter invariant. -/
theorem routeEvent_inv (mapping : String → Option String) (st : AdapterState)
    (e : RawEvent) (h : AdapterInv mapping st) :
    AdapterInv mapping (routeEvent mapping st e) := by
  obtain ⟨ht, hs⟩ := h
  cases hns : e.ns with
  | nil =>
    refine ⟨?_, ?_⟩
    · intro x hx
      simp only [routeEvent, hns] at hx
      rcases List.mem_append.mp hx with hold | hnew
      · exact ht x hold
      · simp at hnew
        subst hnew
        exact hns
    · intro c hc
      simp only [routeEvent, hns] at hc
      exact hs c hc
  | cons seg rest =>
    refine ⟨?_, ?_⟩
    · intro x hx
      simp only [routeEvent, hns] at hx
      exact ht x hx
    · intro c hc
      simp only [routeEvent, hns] at hc
      exact addToSub_sound mapping (resolveKey mapping seg) e
        ⟨seg, rest, hns, rfl⟩ st.subs hs c hc

/-- The adapter invariant holds along the whole event fold. -/
theorem foldl_routeEvent_inv (mapping : String → Option String) :
    ∀ (events : List RawEvent) (st : AdapterState), AdapterInv mapping st →
      AdapterInv mapping (events.foldl (routeEvent mapping) st)
  | [], st, h => h
  | e :: rest, st, h =>
    foldl_routeEvent_inv mapping rest (routeEvent mapping st e) (routeEvent_inv mapping st e h)

/-- The adapter invariant holds of the state built from any event stream. -/
theorem runAdapter_inv (mapping : String → Option String) (events : List RawEvent) :
    AdapterInv mapping (runAdapter mapping events) :=
  foldl_routeEvent_inv mapping events ⟨[], []⟩ ⟨by simp, by simp⟩

/-- The `input_messages` loop is the concatenation of the per-command
contributions of the amended spec interpretation. -/
theorem inputMessagesLoop_spec :
    ∀ (commands : List Command) (acc : List BaseMessage),
      inputMessagesLoop acc commands = acc ++ commandMessagesSpec commands
  | [], acc => by simp [inputMessagesLoop, commandMessagesSpec]
  | .addMessage parts :: rest, acc => by
    rw [inputMessagesLoop, inputMessagesLoop_spec rest]
    simp [commandMessagesSpec, commandContribution]
  | .addToolResult toolCallId result :: rest, acc => by
    rw [inputMessagesLoop, inputMessagesLoop_spec rest]
    simp [commandMessagesSpec, commandContribution]

/-- Appending a fresh key-value pair at the end of an association list
whose lookup misses makes the lookup hit it. -/
theorem lookup_append_fresh (k : String) (v : Val) :
    ∀ l : List (String × Val), (l.lookup k).isNone →
      (l ++ [(k, v)]).lookup k = some v
  | [], _ => by simp [List.lookup]
  | (k0, v0) :: rest, h => by
    by_cases hk : k == k0
    · simp [List.lookup, hk] at h
    · simp only [List.cons_append, List.lookup, hk]
      simp only [List.lookup, hk] at h
      exact lookup_append_fresh k v rest h

/-- The conditional edge after `agent`, as a function of the guard
predicate. -/
theorem routeAfter_agent_eq (messages : List BaseMessage) :
    routeAfter .agent messages =
      if latestCarriesToolCall messages then some GNode.tools else none := by
  cases hb : latestCarriesToolCall messages
  · have hs : should_call_tools messages = "end" := by
      rw [should_call_tools_spec, hb]; rfl
    show (match should_call_tools messages with
      | "tools" => some GNode.tools
      | _ => none) = _
    rw [hs]
    rfl
  · have hs : should_call_tools messages = "tools" := by
      rw [should_call_tools_spec, hb]; rfl
    show (match should_call_tools messages with
      | "tools" => some GNode.tools
      | _ => none) = _
    rw [hs]
    rfl

/-! ## Claims -/

/-- C2: the execution graph's routing function: the entry node is `agent`;
after the `agent` node the run transitions to the `tools` node if and only
if the latest message carries at least one ToolCallRequest, and otherwise
terminates (no other successor is possible); after the `tools` node the
run always returns to `agent`. -/
theorem routing_agent_tools_c2 :
    entryPoint = GNode.agent ∧
    (∀ messages, routeAfter .agent messages = some .tools ↔
      latestCarriesToolCall messages = true) ∧
    (∀ messages, routeAfter .agent messages = some .tools ∨
      routeAfter .agent messages = none) ∧
    (∀ messages, routeAfter .tools messages = some .agent) := by
  refine ⟨rfl, ?_, ?_, fun _ => rfl⟩
  · intro messages
    rw [routeAfter_agent_eq]
    cases latestCarriesToolCall messages <;> simp
  · intro messages
    rw [routeAfter_agent_eq]
    cases latestCarriesToolCall messages <;> simp

/-- C10: for an assistant message carrying a non-empty `tool_calls` list,
the tools node returns exactly one tool message per request, in request
order, each carrying the request's id and name — including requests with
unrecognized tool names, so no request is dropped or reordered. -/
theorem tools_node_message_per_request_c10 (env : LLMEnv) (r : Rng) (c : String)
    (calls : List ToolCall) (pre : List BaseMessage) (h : calls ≠ []) :
    (tool_executor_node env r (pre ++ [.ai c calls])).length = calls.length ∧
    ∀ i : Nat,
      ((tool_executor_node env r (pre ++ [.ai c calls]))[i]?).map ToolMessage.tool_call_id =
        (calls[i]?).map ToolCall.id ∧
      ((tool_executor_node env r (pre ++ [.ai c calls]))[i]?).map ToolMessage.name =
        (calls[i]?).map (fun tc => some tc.name) := by
  have hl : lastToolCalls (pre ++ [.ai c calls]) = calls :=
    lastToolCalls_concat pre c calls
  constructor
  · rw [tool_executor_node, hl]
    exact execToolCalls_length env r calls 0
  · intro i
    rw [tool_executor_node, hl]
    exact execToolCalls_getElem env r calls 0 i

/-- Witness for C10 at a concrete batch containing an unrecognized tool
name followed by a weather request. -/
theorem tools_node_message_per_request_c10_witness :
    calls0 ≠ [] ∧
    ((tool_executor_node env0 r0 ([] ++ [.ai "x" calls0])).length = calls0.length ∧
    ∀ i : Nat,
      ((tool_executor_node env0 r0 ([] ++ [.ai "x" calls0]))[i]?).map ToolMessage.tool_call_id =
        (calls0[i]?).map ToolCall.id ∧
      ((tool_executor_node env0 r0 ([] ++ [.ai "x" calls0]))[i]?).map ToolMessage.name =
        (calls0[i]?).map (fun tc => some tc.name)) :=
  ⟨by decide, tools_node_message_per_request_c10 env0 r0 "x" calls0 [] (by decide)⟩

/-- C3: a backend tool invocation that raises is caught: the executor still
produces a tool message carrying the request's `tool_call_id` and name,
whose content is a nonempty human-readable error string, and the tools
node returns normally with that message (the exception does not propagate,
so the run does not transition to failed). -/
theorem tool_fault_containment_c3 (env : LLMEnv) (r : Rng) (tc : ToolCall)
    (e : String) (c : String) (h : backendInvoke r tc = some (.error e)) :
    (execToolCallT env r tc).1.tool_call_id = tc.id ∧
    (execToolCallT env r tc).1.name = some tc.name ∧
    (∃ s, (execToolCallT env r tc).1.content = "Error " ++ s) ∧
    (execToolCallT env r tc).1.content ≠ "" ∧
    tool_executor_node env r [.ai c [tc]] = [(execToolCallT env r tc).1] := by
  have hcontent : ∃ s, (execToolCallT env r tc).1.content = "Error " ++ s := by
    by_cases h2 : tc.name = "get_weather"
    · have h1 : tc.name ≠ "task_tool" := by rw [h2]; decide
      have hw : get_weather r (argGet tc.args "location" "unknown")
          (argGet tc.args "unit" "celsius") = .error e := by
        simpa [backendInvoke, h2] using h
      refine ⟨"fetching weather for " ++ argGet tc.args "location" "unknown" ++ ": " ++ e, ?_⟩
      simp only [execToolCallT, h1, h2, if_false, if_true, ite_true, ite_false,
        if_neg, if_pos, runBackendTool, hw]
      rw [show ("Error fetching weather for " : String) =
        "Error " ++ "fetching weather for " from rfl]
      simp only [String.append_assoc]
      rw [if_neg (show ¬("get_weather" = "task_tool") from by decide)]
    · by_cases h3 : tc.name = "search_products"
      · simp [backendInvoke, h2, h3] at h
      · by_cases h4 : tc.name = "display_graph"
        · simp [backendInvoke, h2, h3, h4] at h
        · simp [backendInvoke, h2, h3, h4] at h
  refine ⟨execToolCallT_id env r tc, execToolCallT_name env r tc, hcontent, ?_, rfl⟩
  obtain ⟨s, hs⟩ := hcontent
  rw [hs]
  exact error_append_ne_empty s

/-- Witness for C3: the weather tool raises `IndexError` on an empty
`unit` argument, and the executor converts it into an error tool message. -/
theorem tool_fault_containment_c3_witness :
    backendInvoke r0 wErrTc = some (.error "string index out of range") ∧
    ((execToolCallT env0 r0 wErrTc).1.tool_call_id = wErrTc.id ∧
    (execToolCallT env0 r0 wErrTc).1.name = some wErrTc.name ∧
    (∃ s, (execToolCallT env0 r0 wErrTc).1.content = "Error " ++ s) ∧
    (execToolCallT env0 r0 wErrTc).1.content ≠ "" ∧
    tool_executor_node env0 r0 [.ai "x" [wErrTc]] = [(execToolCallT env0 r0 wErrTc).1]) :=
  ⟨rfl, tool_fault_containment_c3 env0 r0 wErrTc "string index out of range" "x" rfl⟩

/-- C4 counterexample: for a concrete delegation request, the tool
message's `artifact` does not equal the sub-computation's final state —
the source stores `{"subgraph_state": final_state}`, a one-field wrapper
object around it. -/
theorem task_artifact_c4_counterexample :
    (execToolCallT env0 r0 taskTc).1.artifact ≠
      some (encodeSubagentState (subagent_invoke env0 ⟨[], "demo", ""⟩)) := by
  intro h
  exact absurd (congrArg (Option.map vobjLen) h) (by decide)

/-- C4 (amended): every delegation request starts exactly one
sub-computation, and the resulting tool message's `artifact` is the
one-field object whose `"subgraph_state"` entry is the sub-computation's
full final state. -/
theorem task_artifact_c4_amended (env : LLMEnv) (r : Rng) (tc : ToolCall)
    (h : tc.name = "task_tool") :
    ((execToolCallT env r tc).2.1).length = 1 ∧
    ∀ final ∈ (execToolCallT env r tc).2.1,
      final = subagent_invoke env ⟨[], argGet tc.args "task_description" "", ""⟩ ∧
      (execToolCallT env r tc).1.artifact =
        some (.vobj [("subgraph_state", encodeSubagentState final)]) := by
  refine ⟨?_, ?_⟩
  · simp [execToolCallT, h]
  · intro final hf
    simp only [execToolCallT, h, if_pos] at hf ⊢
    simp at hf
    subst hf
    exact ⟨rfl, rfl⟩

/-- Witness for C4 (amended) at the concrete delegation request. -/
theorem task_artifact_c4_witness :
    taskTc.name = "task_tool" ∧
    (((execToolCallT env0 r0 taskTc).2.1).length = 1 ∧
    ∀ final ∈ (execToolCallT env0 r0 taskTc).2.1,
      final = subagent_invoke env0 ⟨[], argGet taskTc.args "task_description" "", ""⟩ ∧
      (execToolCallT env0 r0 taskTc).1.artifact =
        some (.vobj [("subgraph_state", encodeSubagentState final)])) :=
  ⟨rfl, task_artifact_c4_amended env0 r0 taskTc rfl⟩

/-- C6 counterexample: a concrete `search_products` request makes backend
dispatch produce exactly one tool message (the claim says it produces
none): the tools node output has length 1 and carries the request's id. -/
theorem client_tool_c6_counterexample :
    (tool_executor_node env0 r0 [.ai "x" [spTc]]).length = 1 ∧
    (tool_executor_node env0 r0 [.ai "x" [spTc]]).map ToolMessage.tool_call_id = ["s1"] :=
  ⟨rfl, rfl⟩

/-- C6 (amended): the product-search tool is executed by the backend:
every `search_products` request produces exactly one tool message whose
content is the `search_products` result for the request's query, carrying
the request's id and name, no artifact, and spawning no sub-computation;
the tools node returns exactly that message. -/
theorem client_tool_c6_amended (env : LLMEnv) (r : Rng) (tc : ToolCall) (c : String)
    (h : tc.name = "search_products") :
    (execToolCallT env r tc).1 =
      { content := search_products (argGet tc.args "query" ""),
        tool_call_id := tc.id, name := some tc.name, artifact := none } ∧
    (execToolCallT env r tc).2.1 = [] ∧
    tool_executor_node env r [.ai c [tc]] = [(execToolCallT env r tc).1] := by
  refine ⟨?_, ?_, rfl⟩
  · simp [execToolCallT, h, runBackendTool]
  · simp [execToolCallT, h]

/-- Witness for C6 (amended) at the concrete product-search request. -/
theorem client_tool_c6_witness :
    spTc.name = "search_products" ∧
    ((execToolCallT env0 r0 spTc).1 =
      { content := search_products (argGet spTc.args "query" ""),
        tool_call_id := spTc.id, name := some spTc.name, artifact := none } ∧
    (execToolCallT env0 r0 spTc).2.1 = [] ∧
    tool_executor_node env0 r0 [.ai "x" [spTc]] = [(execToolCallT env0 r0 spTc).1]) :=
  ⟨rfl, client_tool_c6_amended env0 r0 spTc "x" rfl⟩

/-- C7 counterexample: two invocations of `get_weather` with the same
arguments under different ambient random-module states return different
results, so the weather tool is not a deterministic function of its
arguments. -/
theorem pure_tools_c7_counterexample :
    get_weather r0 "Tokyo" "celsius" ≠ get_weather r7 "Tokyo" "celsius" := by
  intro h
  exact absurd (congrArg Except.toOption h) (by decide)

/-- C7 (amended): `search_products` and `display_graph` are deterministic,
side-effect-free functions of their arguments — their invocations ignore
the ambient random-module state — while `get_weather` reads that state,
so two weather invocations with the same arguments can differ. -/
theorem pure_tools_c7_amended :
    (∀ (r1 r2 : Rng) (query : String),
      search_products_at r1 query = search_products_at r2 query) ∧
    (∀ (r1 r2 : Rng) (plot_type : String),
      display_graph_at r1 plot_type = display_graph_at r2 plot_type) ∧
    (∃ r1 r2 : Rng, get_weather r1 "Paris" "celsius" ≠ get_weather r2 "Paris" "celsius") := by
  refine ⟨fun _ _ _ => rfl, fun _ _ _ => rfl, fun _ => (1 : Nat), fun _ => 2, ?_⟩
  intro h
  exact absurd (congrArg Except.toOption h) (by decide)

/-- C8 counterexample: a weather request whose arguments contain
`location = "Tokyo"` but an empty `unit` makes `get_weather` raise, so the
resulting tool message's content is the error string, not a JSON object
with a `"location"` field. -/
theorem weather_json_c8_counterexample :
    ¬ weatherJsonClaim "Tokyo" "" ((execToolCallT env0 r0 wErrTc).1.content) := by
  rintro ⟨fs, hc, _, _⟩
  have h1 : ((execToolCallT env0 r0 wErrTc).1.content).data.head? = some (Char.ofNat 69) :=
    rfl
  rw [hc, dumpVal_vobj_head fs] at h1
  exact absurd h1 (by decide)

/-- C8 (amended): for every `get_weather` request whose arguments contain
location `L` and whose requested unit (defaulting to celsius when absent)
is nonempty, the resulting tool message's content is a JSON object string
whose `"location"` field is `L` and whose `"unit"` field is the requested
unit; a request whose `unit` argument is the empty string instead raises
inside the tool and yields the caught error message. -/
theorem weather_json_c8_amended (env : LLMEnv) (r : Rng) (tc : ToolCall) (L : String)
    (hname : tc.name = "get_weather")
    (hloc : tc.args.lookup "location" = some L)
    (hunit : argGet tc.args "unit" "celsius" ≠ "") :
    weatherJsonClaim L (argGet tc.args "unit" "celsius")
      ((execToolCallT env r tc).1.content) := by
  have hL : argGet tc.args "location" "unknown" = L := by
    rw [argGet, hloc]; rfl
  obtain ⟨c, cs, hdata⟩ :
      ∃ c cs, (argGet tc.args "unit" "celsius").data = c :: cs := by
    cases hu : (argGet tc.args "unit" "celsius").data with
    | nil =>
      exact absurd (by
        cases hq : argGet tc.args "unit" "celsius" with
        | mk l => rw [hq] at hu; simp at hu; rw [hu]) hunit
    | cons c cs => exact ⟨c, cs, rfl⟩
  have hne : tc.name ≠ "task_tool" := by rw [hname]; decide
  refine ⟨weatherData (argGet tc.args "location" "unknown")
    (argGet tc.args "unit" "celsius") (pyRandint r 0 10 30)
    (pyChoice r 1 weatherConditions) (pyRandint r 2 40 80) (pyRandint r 3 5 25) c,
    ?_, ?_, ?_⟩
  · simp only [execToolCallT, hname, if_neg, if_pos, runBackendTool]
    rw [if_neg (show ¬("get_weather" = "task_tool") from by decide)]
    simp only [get_weather, hdata]
  · rw [weatherData]
    simp [List.lookup, hL]
  · rw [weatherData]
    simp [List.lookup]

/-- Witness for C8 (amended): a weather request with `location = "Tokyo"`
and no `unit` argument (so the requested unit defaults to celsius). -/
theorem weather_json_c8_witness :
    wokTc.name = "get_weather" ∧
    wokTc.args.lookup "location" = some "Tokyo" ∧
    argGet wokTc.args "unit" "celsius" ≠ "" ∧
    weatherJsonClaim "Tokyo" (argGet wokTc.args "unit" "celsius")
      ((execToolCallT env0 r0 wokTc).1.content) :=
  ⟨rfl, rfl, by decide,
    weather_json_c8_amended env0 r0 wokTc "Tokyo" rfl rfl (by decide)⟩

/-- C5 counterexample: an `add-message` command with text parts `"a"` and
`"b"` contributes a user message whose content is the space-join `"a b"`,
not the concatenation `"ab"`; and an `add-message` command with no text
parts contributes no message at all, so a command does not always
contribute exactly one user message. -/
theorem commands_c5_counterexample :
    input_messages [abCmd] = [.human "a b"] ∧
    "a b" ≠ "ab" ∧
    input_messages [imgCmd] = [] :=
  ⟨rfl, by decide, rfl⟩

/-- C5 (amended): the inbound command list is converted, before the
execution graph starts, into the graph's initial message list as follows:
each `add-message` command with at least one nonempty text part
contributes exactly one user message whose content is those parts joined
by single spaces (a command with none contributes no message), and each
`add-tool-result` command contributes exactly one tool message whose
`tool_call_id` is the client-supplied `toolCallId`. -/
theorem commands_c5_amended (commands : List Command) :
    graph_initial_state commands = commandMessagesSpec commands := by
  simpa [graph_initial_state, input_messages] using inputMessagesLoop_spec commands []

/-- C9: run creation seeds the controller state from the inbound state's
messages verbatim when provided (the state object is left untouched);
a `None` inbound state becomes the empty state with an empty messages
list; and an inbound state without a messages field gets an empty messages
list — all before the graph is invoked. -/
theorem run_seed_c9 (st : List (String × Val)) (m : Val)
    (h : st.lookup "messages" = some m) :
    run_callback_seed (some st) = st ∧
    run_callback_seed none = [("messages", Val.varr [])] ∧
    (∀ st2 : List (String × Val), (st2.lookup "messages").isNone = true →
      (run_callback_seed (some st2)).lookup "messages" = some (.varr [])) := by
  refine ⟨?_, rfl, ?_⟩
  · simp [run_callback_seed, create_run_state, h]
  · intro st2 h2
    simp only [run_callback_seed, create_run_state, Option.getD_some]
    rw [if_pos h2]
    exact lookup_append_fresh "messages" (.varr []) st2 h2

/-- Witness for C9 at a concrete inbound state carrying a messages list. -/
theorem run_seed_c9_witness :
    seedSt.lookup "messages" = some (Val.varr [Val.vstr "m"]) ∧
    (run_callback_seed (some seedSt) = seedSt ∧
    run_callback_seed none = [("messages", Val.varr [])] ∧
    (∀ st2 : List (String × Val), (st2.lookup "messages").isNone = true →
      (run_callback_seed (some st2)).lookup "messages" = some (.varr []))) :=
  ⟨rfl, run_seed_c9 seedSt (Val.varr [Val.vstr "m"]) rfl⟩

/-- C1: events from a delegated sub-computation's namespace never reach
the top-level messages list — every event applied there has the empty
namespace — and, for two sibling delegations, an event whose namespace
originates in sub-computation `invA` (registered to tool call `tcA`) is
never applied to the container of a different tool call `tcB`: each
sub-computation's events mutate only the artifact container of its own
originating tool call. -/
theorem namespace_isolation_c1 (mapping : String → Option String)
    (events : List RawEvent) (invA tcA tcB : String)
    (h1 : mapping invA = some tcA) (h2 : tcB ≠ tcA) :
    (∀ e ∈ (runAdapter mapping events).topEvents, e.ns = []) ∧
    (∀ c ∈ (runAdapter mapping events).subs, c.key = .toolCall tcB →
      ∀ e ∈ c.events, ∀ seg rest, e.ns = seg :: rest → seg.invId ≠ invA) := by
  obtain ⟨ht, hs⟩ := runAdapter_inv mapping events
  refine ⟨ht, ?_⟩
  intro c hc hkey e he seg rest hns hinv
  obtain ⟨seg2, rest2, hns2, hres⟩ := hs c hc e he
  rw [hns] at hns2
  injection hns2 with hseg hrest
  rw [← hseg, hkey] at hres
  simp only [resolveKey, hinv, h1] at hres
  injection hres with htc
  exact h2 htc.symm

/-- Witness for C1: a concrete registry mapping sibling sub-computations
`inv1`/`inv2` to tool calls `A`/`B` and an interleaved three-event
stream. -/
theorem namespace_isolation_c1_witness :
    mapping0 "inv1" = some "A" ∧ "B" ≠ "A" ∧
    ((∀ e ∈ (runAdapter mapping0 events0).topEvents, e.ns = []) ∧
    (∀ c ∈ (runAdapter mapping0 events0).subs, c.key = .toolCall "B" →
      ∀ e ∈ c.events, ∀ seg rest, e.ns = seg :: rest → seg.invId ≠ "inv1")) :=
  ⟨rfl, by decide, namespace_isolation_c1 mapping0 events0 "inv1" "A" "B" rfl (by decide)⟩

end AssistantDemo
